import Mathlib

/-!
# Firebase ID token verification (package firebase)

A shallow embedding of `token_verifier.go` and `errors.go`.

* Go strings are byte sequences; a string decoded from a JSON token is valid
  UTF-8, so it is modelled by a Lean `String` and Go's `len` by the byte size of
  its UTF-8 encoding.
* The collaborators that `VerifyIDToken` calls (the jose library, the
  certificate store) are fields of an environment record; every call that the
  function makes is appended to a trace, so that the order and the arguments of
  the calls can be stated.
* A run of `VerifyIDToken` ends either by returning the pair `(*Token, error)`
  or by a run-time panic (index out of range).
-/

namespace Firebase

/-! ## Dynamic values, maps, strings -/

/-- Modelled from the spec: the values a Go `interface{}` slot of a decoded header
or claim set can hold (the JSON data model of the jose library, which is not among
the sources). A number is carried by its literal text. `null` is also the nil
interface that a map lookup of an absent key yields. -/
inductive Value where
  | null
  | bool (b : Bool)
  | number (literal : String)
  | str (s : String)
  | array (xs : List Value)
  | object (kvs : List (String × Value))

/-- Go `map[string]interface{}`, the representation of both `jose.Header` and
`jwt.Claims`. -/
abbrev Dict := List (String × Value)

/-- Modelled from the spec: `Get` of the jose maps (`h[key]`): the stored value, or
the nil interface when the key is absent. -/
def Dict.Get (m : Dict) (key : String) : Value :=
  match m.lookup key with
  | some v => v
  | none => Value.null

/-- Modelled from the spec: `Set` of the jose maps (`m[key] = val`): replaces the
entry of `key`, or adds one. -/
def Dict.Set (m : Dict) (key : String) (val : Value) : Dict :=
  if m.any (fun e => e.1 == key) then
    m.map (fun e => if e.1 == key then (key, val) else e)
  else
    m ++ [(key, val)]

/-- Go type assertion `v.(string)`: the string and `true`, or the zero value and
`false`. -/
def Value.assertString : Value → String × Bool
  | Value.str s => (s, true)
  | _ => ("", false)

/-- Go builtin `len` on a string: the number of bytes. -/
def len (s : String) : Nat := s.utf8ByteSize

/-- Claim sets of the jose library (`jwt.Claims`). -/
abbrev Claims := Dict

/-- Modelled from the spec: `Claims.Subject` of the jose library, the "sub" claim
asserted to a string. -/
def Claims.Subject (c : Claims) : String × Bool :=
  (Dict.Get c "sub").assertString

/-- Go `time.Duration`: a count of nanoseconds. -/
abbrev Duration := Int

/-- Go `time.Second`. -/
def Second : Duration := 1000000000

/-- Formatting loop of `fmt.Sprintf` for the verbs `%s` and `%%` with string
operands: literal text is copied, `%s` consumes the next operand. -/
def Sprintf.go : List Char → List String → List Char
  | [], _ => []
  | '%' :: 's' :: rest, a :: args => a.toList ++ Sprintf.go rest args
  | '%' :: 's' :: rest, [] => "%!s(MISSING)".toList ++ Sprintf.go rest []
  | '%' :: '%' :: rest, args => '%' :: Sprintf.go rest args
  | c :: rest, args => c :: Sprintf.go rest args

/-- Go `fmt.Sprintf` restricted to string operands and the verbs `%s`, `%%`. -/
def Sprintf (format : String) (args : List String) : String :=
  String.mk (Sprintf.go format.toList args)

/-! ## errors.go -/

/-- The dynamic value attached to an `ErrValue`: the source attaches either the
decoded token or its protected header. -/
inductive Attached (J : Type) where
  | jwt (j : J)
  | header (h : Dict)

/-- Type `ErrValue` of errors.go. -/
structure ErrValue (J : Type) where
  val : Attached J
  msg : String

/-- Go `error` values that occur in the package: `ErrValue`, the library sentinel
`jwt.ErrInvalidSUBClaim`, and any other error a collaborator reports. -/
inductive Error (J : Type) where
  | errValue (e : ErrValue J)
  | ErrInvalidSUBClaim
  | other (text : String)

/-! ## validator -/

/-- Modelled from the spec: `jwt.Validator` of the jose library: the expected
claims (a nil map until one is set), the expiry and not-before leeways, and the
custom check. -/
structure Validator (J : Type) where
  Expected : Option Claims
  EXP : Duration
  NBF : Duration
  Fn : Option (Claims → Option (Error J))

/-- Zero value `jwt.Validator{}`. -/
def Validator.zero (J : Type) : Validator J :=
  { Expected := none, EXP := 0, NBF := 0, Fn := none }

/-- Modelled from the spec: `Validator.expect` of the jose library allocates the
expected-claims map on first use. -/
def Validator.expect {J : Type} (v : Validator J) : Validator J :=
  match v.Expected with
  | some _ => v
  | none => { v with Expected := some [] }

/-- Modelled from the spec: `Validator.SetAudience` stores the single expected
audience under "aud". -/
def Validator.SetAudience {J : Type} (v : Validator J) (aud : String) : Validator J :=
  let v1 := v.expect
  { v1 with Expected := v1.Expected.map (fun m => Dict.Set m "aud" (Value.str aud)) }

/-- Modelled from the spec: `Validator.SetIssuer` stores the expected issuer under
"iss". -/
def Validator.SetIssuer {J : Type} (v : Validator J) (iss : String) : Validator J :=
  let v1 := v.expect
  { v1 with Expected := v1.Expected.map (fun m => Dict.Set m "iss" (Value.str iss)) }

/-- Constant `defaultAcceptableExpSkew`. -/
def defaultAcceptableExpSkew : Duration := 300 * Second

/-- The closure assigned to `v.Fn` in `validator`. -/
def validatorFn (J : Type) (claims : Claims) : Option (Error J) :=
  let (subject, ok) := Claims.Subject claims
  if !ok || len subject == 0 || len subject > 128 then
    some Error.ErrInvalidSUBClaim
  else
    none

/-- Function `validator` of token_verifier.go. -/
def validator (J : Type) (projectID : String) : Validator J :=
  let v := Validator.zero J
  let v := { v with EXP := defaultAcceptableExpSkew }
  let v := v.SetAudience projectID
  let v := v.SetIssuer (Sprintf "https://securetoken.google.com/%s" [projectID])
  { v with Fn := some (validatorFn J) }

/-! ## VerifyIDToken -/

/-- Constant `clientCertURL`. -/
def clientCertURL : String :=
  "https://www.googleapis.com/robot/v1/metadata/x509/securetoken@system.gserviceaccount.com"

/-- Modelled from the spec: the signing methods exported by the `crypto` package of
the jose library (elliptic-curve, HMAC, RSA-PSS and RSA PKCS#1 families, and the
unsecured method). -/
inductive SigningMethod where
  | ES256 | ES384 | ES512
  | HS256 | HS384 | HS512
  | PS256 | PS384 | PS512
  | RS256 | RS384 | RS512
  | Unsecured
  deriving DecidableEq

/-- Modelled from the spec: exported fields of `jws.SigningOpts`. -/
structure SigningOpts where
  Number : Nat
  Indices : List Int
  deriving DecidableEq

/-- Modelled from the spec: type `Token`, declared outside the given sources; the
composite literal in `VerifyIDToken` shows its field `delegate`. -/
structure Token (J : Type) where
  delegate : J

/-- Calls made during a run, in the order they are made: the calls that leave
the package, and the entries into the key callback. `J` is the type of decoded
tokens (`jwt.JWT`), `W` their signature view (`jws.JWS`) and `K` the type of
keys. -/
inductive Event (J W K : Type) where
  | ParseJWT (raw : String)
  | KeysCallback (j : W)
  | Cert (url kid : String)
  | VerifyCallback (j : W) (methods : List SigningMethod) (o : SigningOpts)
  | Validate (j : J) (key : K) (method : SigningMethod) (v : Validator J)

/-- Modelled from the spec: behaviour of the library method `VerifyCallback`, which
receives the key callback as an argument: it either finishes with its `error`
result, or calls the callback on a token and goes on according to what the
callback returned. -/
inductive Callback (W K E : Type) where
  | ret (err : Option E)
  | call (j : W) (next : List K × Option E → Callback W K E)

/-- The collaborators of `VerifyIDToken`, none of which is among the sources.
`σ` is the state of the outside world (network, clock).

* `ParseJWT`: `jws.ParseJWT`, a token or an error;
* `asJWS`: the type assertion `decodedJWT.(jws.JWS)`;
* `Protected`: the protected header `j.Protected()`;
* `Cert`: `(&Certificates{URL: url}).Cert(kid)`. Modelled from the spec: contract
  `resolve(kid) -> SigningKey | Error`; a lookup may change the world and two
  lookups of one `kid` need not agree;
* `PublicKey`: field `PublicKey` of a certificate;
* `VerifyCallback`: the method `VerifyCallback` of a `jws.JWS`;
* `Validate`: the method `Validate` of a `jwt.JWT`, which reads the clock. -/
structure Env (J W C K σ : Type) where
  ParseJWT : String → Except (Error J) J
  asJWS : J → Option W
  Protected : W → Dict
  Cert : String → String → σ → Except (Error J) C × σ
  PublicKey : C → K
  VerifyCallback : W → List SigningMethod → SigningOpts → Callback W K (Error J)
  Validate : J → K → SigningMethod → Validator J → σ → Option (Error J)

/-- State of a run: the outside world and the calls made so far. -/
structure Run (J W K σ : Type) where
  world : σ
  trace : List (Event J W K)

/-- The closure `keys` of `VerifyIDToken`: the pair `([]interface{}, error)` it
returns, and the state after it. -/
def keys {J W C K σ : Type} (env : Env J W C K σ) (j : W) (s : Run J W K σ) :
    (List K × Option (Error J)) × Run J W K σ :=
  let s0 : Run J W K σ := { s with trace := s.trace ++ [Event.KeysCallback j] }
  let (kid, ok) := (Dict.Get (env.Protected j) "kid").assertString
  if !ok then
    (([], some (Error.errValue
      { msg := "Firebase Auth ID Token has no 'kid' claim",
        val := Attached.header (env.Protected j) })), s0)
  else
    let s1 : Run J W K σ :=
      { world := (env.Cert clientCertURL kid s.world).2,
        trace := s0.trace ++ [Event.Cert clientCertURL kid] }
    match (env.Cert clientCertURL kid s.world).1 with
    | Except.error certErr => (([], some certErr), s1)
    | Except.ok cert => (([env.PublicKey cert], none), s1)

/-- Execution of a library `VerifyCallback` against a key callback `fn`. -/
def Callback.run {W K E S : Type} (fn : W → S → (List K × Option E) × S) :
    Callback W K E → S → Option E × S
  | Callback.ret err, s => (err, s)
  | Callback.call j next, s => Callback.run fn (next (fn j s).1) (fn j s).2

/-- How a run of `VerifyIDToken` ends: it returns its pair of results, or it
panics at the index expression `ks[0]`. -/
inductive Outcome (J : Type) where
  | returned (token : Option (Token J)) (err : Option (Error J))
  | panicked

/-- The options literal `&jws.SigningOpts{Number: 1, Indices: []int{0}}`. -/
def signingOpts : SigningOpts := { Number := 1, Indices := [0] }

/-- Function `VerifyIDToken` of token_verifier.go, run in world `w`. -/
def VerifyIDToken {J W C K σ : Type} (env : Env J W C K σ)
    (projectID tokenString : String) (w : σ) : Outcome J × Run J W K σ :=
  let s0 : Run J W K σ := { world := w, trace := [Event.ParseJWT tokenString] }
  match env.ParseJWT tokenString with
  | Except.error err => (Outcome.returned none (some err), s0)
  | Except.ok decodedJWT =>
    match env.asJWS decodedJWT with
    | none =>
      (Outcome.returned none (some (Error.errValue
        { msg := "Firebase Auth ID Token cannot be decoded",
          val := Attached.jwt decodedJWT })), s0)
    | some decodedJWS =>
      let s1 : Run J W K σ :=
        { s0 with trace := s0.trace ++
            [Event.VerifyCallback decodedJWS [SigningMethod.RS256] signingOpts] }
      let r := Callback.run (keys env)
        (env.VerifyCallback decodedJWS [SigningMethod.RS256] signingOpts) s1
      match r.1 with
      | some err => (Outcome.returned none (some err), r.2)
      | none =>
        let ks := (keys env decodedJWS r.2).1.1
        let s2 := (keys env decodedJWS r.2).2
        match ks with
        | [] => (Outcome.panicked, s2)
        | key :: _ =>
          let v := validator J projectID
          let s3 : Run J W K σ :=
            { s2 with trace := s2.trace ++
                [Event.Validate decodedJWT key SigningMethod.RS256 v] }
          match env.Validate decodedJWT key SigningMethod.RS256 v s2.world with
          | some err => (Outcome.returned none (some err), s3)
          | none => (Outcome.returned (some { delegate := decodedJWT }) none, s3)

/-- The call `decodedJWS.VerifyCallback(keys, ...)` that `VerifyIDToken` makes on
the token string `tokenString` in world `w`: its `error` result and the state
after it. -/
def verifyCallbackCall {J W C K σ : Type} (env : Env J W C K σ)
    (tokenString : String) (decodedJWS : W) (w : σ) : Option (Error J) × Run J W K σ :=
  Callback.run (keys env)
    (env.VerifyCallback decodedJWS [SigningMethod.RS256] signingOpts)
    { world := w,
      trace := [Event.ParseJWT tokenString,
                Event.VerifyCallback decodedJWS [SigningMethod.RS256] signingOpts] }

/-- The call `keys(decodedJWS)` that `VerifyIDToken` makes once `VerifyCallback`
has returned: the pair it returns and the state after it. -/
def secondKeysCall {J W C K σ : Type} (env : Env J W C K σ)
    (tokenString : String) (decodedJWS : W) (w : σ) :
    (List K × Option (Error J)) × Run J W K σ :=
  keys env decodedJWS (verifyCallbackCall env tokenString decodedJWS w).2

/-! ## The library's `VerifyCallback`, and an example environment -/

/-- Modelled from the spec: `VerifyCallback` as the jose library implements it
(stages KeyResolution then SignatureCheck of the spec): the keys are resolved
through the callback once; an error of the callback is returned as it is,
otherwise the signature is checked with the resolved keys by `verifyMulti`. -/
def joseVerifyCallback {W K E : Type}
    (verifyMulti : W → List K → List SigningMethod → SigningOpts → Option E)
    (j : W) (methods : List SigningMethod) (o : SigningOpts) : Callback W K E :=
  Callback.call j (fun r =>
    match r.2 with
    | some err => Callback.ret (some err)
    | none => Callback.ret (verifyMulti j r.1 methods o))

/-- Decoded tokens of the example environment: protected header, claims, and the
public key that matches the signature. -/
structure SampleJWT where
  header : Dict
  claims : Claims
  signer : String

/-- A well-formed token signed with key K1 for project proj-x. -/
def sampleToken : SampleJWT :=
  { header := [("alg", Value.str "RS256"), ("kid", Value.str "K1")],
    claims := [("aud", Value.str "proj-x"),
               ("iss", Value.str "https://securetoken.google.com/proj-x"),
               ("sub", Value.str "user-42")],
    signer := "pub-K1" }

/-- The token of the example environment whose header carries an empty kid. -/
def emptyKidToken : SampleJWT :=
  { sampleToken with header := [("alg", Value.str "RS256"), ("kid", Value.str "")] }

/-- The token of the example environment whose header carries no kid. -/
def noKidToken : SampleJWT :=
  { sampleToken with header := [("alg", Value.str "RS256")] }

/-- The token of the example environment that was signed with another key. -/
def forgedToken : SampleJWT :=
  { sampleToken with signer := "pub-other" }

/-- The token of the example environment whose subject is empty. -/
def emptySubToken : SampleJWT :=
  { sampleToken with claims := [("aud", Value.str "proj-x"),
                               ("iss", Value.str "https://securetoken.google.com/proj-x"),
                               ("sub", Value.str "")] }

/-- Parser of the example environment: five token strings are known. -/
def sampleParse (raw : String) : Except (Error SampleJWT) SampleJWT :=
  if raw == "token-K1" then Except.ok sampleToken
  else if raw == "token-forged" then Except.ok forgedToken
  else if raw == "token-empty-kid" then Except.ok emptyKidToken
  else if raw == "token-no-kid" then Except.ok noKidToken
  else if raw == "token-empty-sub" then Except.ok emptySubToken
  else Except.error (Error.other "not a compact JWS")

/-- Certificate store of the example environment. The world is the number of
fetches that still succeed; after that, the endpoint is unreachable. -/
def sampleCert (_url kid : String) (fetchesLeft : Nat) :
    Except (Error SampleJWT) String × Nat :=
  match fetchesLeft with
  | 0 => (Except.error (Error.other "certificate fetch failed"), 0)
  | n + 1 =>
    if kid == "K1" then (Except.ok "cert-K1", n)
    else (Except.error (Error.other "unknown kid"), n)

/-- Signature check of the example environment: one key, one method, and the key
is the signer's. -/
def sampleVerifyMulti (j : SampleJWT) (ks : List String) (methods : List SigningMethod)
    (_o : SigningOpts) : Option (Error SampleJWT) :=
  if ks == [j.signer] && methods == [SigningMethod.RS256] then none
  else some (Error.other "signature mismatch")

/-- Claim validation of the example environment: signature, then the custom
check of the validator. -/
def sampleValidate (j : SampleJWT) (key : String) (method : SigningMethod)
    (v : Validator SampleJWT) (_w : Nat) : Option (Error SampleJWT) :=
  if key == j.signer && method == SigningMethod.RS256 then
    match v.Fn with
    | some fn => fn j.claims
    | none => none
  else some (Error.other "signature mismatch")

/-- A `VerifyCallback` that behaves as the one of the example environment on the
method list `[RS256]` with the fixed options, and accepts every token without
looking at a key on any other argument. -/
def laxVerifyCallback (j : SampleJWT) (methods : List SigningMethod) (o : SigningOpts) :
    Callback SampleJWT String (Error SampleJWT) :=
  if methods = [SigningMethod.RS256] ∧ o = signingOpts then
    joseVerifyCallback sampleVerifyMulti j methods o
  else Callback.ret none

/-- A `Validate` that behaves as the one of the example environment on the method
`RS256`, and accepts every token on any other method. -/
def laxValidate (j : SampleJWT) (key : String) (method : SigningMethod)
    (v : Validator SampleJWT) (w : Nat) : Option (Error SampleJWT) :=
  if method = SigningMethod.RS256 then sampleValidate j key method v w else none

/-- A subject of 128 characters, each of which takes two bytes in UTF-8. -/
def twoByteSubject : String := String.mk (List.replicate 128 'é')

/-- The example environment. -/
def sampleEnv : Env SampleJWT SampleJWT String String Nat :=
  { ParseJWT := sampleParse,
    asJWS := fun j => some j,
    Protected := fun j => j.header,
    Cert := sampleCert,
    PublicKey := fun c => if c == "cert-K1" then "pub-K1" else "pub-unknown",
    VerifyCallback := joseVerifyCallback sampleVerifyMulti,
    Validate := sampleValidate }

/-! ## Properties of `validator` -/

/-- The issuer format has its one verb at the end, so that formatting is
concatenation, whatever the operand contains. -/
theorem Sprintf_issuer (p : String) :
    Sprintf "https://securetoken.google.com/%s" [p] = "https://securetoken.google.com/" ++ p := by
  apply String.ext
  show Sprintf.go _ _ = _
  simp [Sprintf.go, String.toList]

/-- Acceptance by the custom check, in terms of the "sub" entry. -/
theorem validatorFn_eq_none_iff (J : Type) (c : Claims) :
    validatorFn J c = none ↔
      ∃ s, Dict.Get c "sub" = Value.str s ∧ 1 ≤ len s ∧ len s ≤ 128 := by
  unfold validatorFn Claims.Subject
  cases h : Dict.Get c "sub" <;> simp [Value.assertString]
  omega

/-- C3 (as amended): the custom check of `validator(projectID)` is `validatorFn`,
which returns nil exactly when the "sub" claim is a string of at least 1 and at
most 128 bytes (Go `len` counts the bytes of the UTF-8 encoding), and returns
`jwt.ErrInvalidSUBClaim` in every other case; a subject of exactly 128 bytes is
accepted whatever it contains, the empty subject is rejected. -/
theorem validatorFn_accepts_iff_byte_length (J : Type) (projectID : String) (c : Claims) :
    (validator J projectID).Fn = some (validatorFn J) ∧
    (validatorFn J c = none ↔
      ∃ s, Dict.Get c "sub" = Value.str s ∧ 1 ≤ len s ∧ len s ≤ 128) ∧
    (validatorFn J c ≠ none ↔ validatorFn J c = some Error.ErrInvalidSUBClaim) ∧
    (∀ s, validatorFn J [("sub", Value.str s)] = none ↔ (1 ≤ len s ∧ len s ≤ 128)) ∧
    validatorFn J [("sub", Value.str "")] = some Error.ErrInvalidSUBClaim := by
  refine ⟨rfl, validatorFn_eq_none_iff J c, ?_, ?_, rfl⟩
  · unfold validatorFn
    split
    simp
  · intro s
    rw [validatorFn_eq_none_iff]
    have h : Dict.Get [("sub", Value.str s)] "sub" = Value.str s := by
      simp [Dict.Get, List.lookup]
    rw [h]
    simp

set_option maxRecDepth 100000 in
/-- C3 (counterexample): a claim set whose subject is present, non-empty and
exactly 128 characters long is rejected with `jwt.ErrInvalidSUBClaim`, because its
128 characters take 256 bytes. -/
theorem validatorFn_rejects_128_characters :
    Dict.Get [("sub", Value.str twoByteSubject)] "sub" = Value.str twoByteSubject ∧
    twoByteSubject ≠ "" ∧
    twoByteSubject.length = 128 ∧
    len twoByteSubject = 256 ∧
    validatorFn Unit [("sub", Value.str twoByteSubject)] = some Error.ErrInvalidSUBClaim := by
  refine ⟨rfl, by decide, rfl, rfl, rfl⟩

/-- C4: for every projectID `p`, the expected claims of `validator(p)` are the
two entries "aud", the single string `p`, and "iss", the string
"https://securetoken.google.com/" followed by `p`; every other claim name
(among them "sub", "jti", "iat") has no expected value. -/
theorem validator_expected_claims (J : Type) (p : String) :
    (validator J p).Expected =
      some [("aud", Value.str p),
            ("iss", Value.str ("https://securetoken.google.com/" ++ p))] ∧
    (∀ key : String,
      List.lookup key [("aud", Value.str p),
            ("iss", Value.str ("https://securetoken.google.com/" ++ p))] =
        if key = "aud" then some (Value.str p)
        else if key = "iss" then some (Value.str ("https://securetoken.google.com/" ++ p))
        else none) ∧
    List.lookup "sub" [("aud", Value.str p),
            ("iss", Value.str ("https://securetoken.google.com/" ++ p))] = none ∧
    List.lookup "jti" [("aud", Value.str p),
            ("iss", Value.str ("https://securetoken.google.com/" ++ p))] = none ∧
    List.lookup "iat" [("aud", Value.str p),
            ("iss", Value.str ("https://securetoken.google.com/" ++ p))] = none := by
  refine ⟨?_, ?_, rfl, rfl, rfl⟩
  · rw [← Sprintf_issuer]
    rfl
  · intro key
    by_cases h1 : key = "aud"
    · subst h1
      rfl
    · by_cases h2 : key = "iss"
      · subst h2
        rfl
      · have e1 : (key == "aud") = false := by simpa using h1
        have e2 : (key == "iss") = false := by simpa using h2
        simp [List.lookup, h1, h2, e1, e2]

/-- C9: for every projectID, the expiry leeway of `validator(projectID)` is 300
seconds (300000000000 nanoseconds) and the not-before leeway is zero. -/
theorem validator_leeways (J : Type) (projectID : String) :
    (validator J projectID).EXP = 300 * Second ∧
    (validator J projectID).EXP = 300000000000 ∧
    (validator J projectID).NBF = 0 := by
  refine ⟨rfl, rfl, rfl⟩

/-! ## Properties of the key callback -/

/-- The key callback on a header whose kid is the string `k`. -/
theorem keys_of_string_kid {J W C K σ : Type} (env : Env J W C K σ) (j : W)
    (s : Run J W K σ) (k : String) (h : Dict.Get (env.Protected j) "kid" = Value.str k) :
    keys env j s =
      ((match (env.Cert clientCertURL k s.world).1 with
        | Except.error certErr => ([], some certErr)
        | Except.ok cert => ([env.PublicKey cert], none)),
       { world := (env.Cert clientCertURL k s.world).2,
         trace := s.trace ++ [Event.KeysCallback j, Event.Cert clientCertURL k] }) := by
  unfold keys
  rw [h]
  simp only [Value.assertString]
  cases (env.Cert clientCertURL k s.world).1 <;> simp

/-- The key callback on a header whose kid is absent or not a string. -/
theorem keys_of_no_string_kid {J W C K σ : Type} (env : Env J W C K σ) (j : W)
    (s : Run J W K σ) (h : ∀ k, Dict.Get (env.Protected j) "kid" ≠ Value.str k) :
    keys env j s =
      (([], some (Error.errValue
          { msg := "Firebase Auth ID Token has no 'kid' claim",
            val := Attached.header (env.Protected j) })),
       { world := s.world, trace := s.trace ++ [Event.KeysCallback j] }) := by
  unfold keys
  cases hv : Dict.Get (env.Protected j) "kid" <;> simp [Value.assertString]
  exact absurd hv (h _)

/-- C5 (as amended): when the protected header carries a kid that is the empty
string, the key callback does consult the key source: it calls
`Certificates.Cert` exactly once, with the empty string, and returns what that
lookup yields, the lookup's error with a nil key list or else the certificate's
public key with a nil error. -/
theorem keys_empty_kid_calls_Cert {J W C K σ : Type} (env : Env J W C K σ) (j : W)
    (s : Run J W K σ) (h : Dict.Get (env.Protected j) "kid" = Value.str "") :
    (keys env j s).2.trace = s.trace ++ [Event.KeysCallback j, Event.Cert clientCertURL ""] ∧
    (keys env j s).2.world = (env.Cert clientCertURL "" s.world).2 ∧
    (keys env j s).1 =
      (match (env.Cert clientCertURL "" s.world).1 with
        | Except.error certErr => ([], some certErr)
        | Except.ok cert => ([env.PublicKey cert], none)) := by
  rw [keys_of_string_kid env j s "" h]
  exact ⟨rfl, rfl, rfl⟩

/-- C5 (witness): the amended statement at the token with an empty kid of the
example environment. -/
theorem keys_empty_kid_calls_Cert_witness :
    Dict.Get (sampleEnv.Protected emptyKidToken) "kid" = Value.str "" ∧
    (keys sampleEnv emptyKidToken { world := 1, trace := [] }).2.trace =
      [] ++ [Event.KeysCallback emptyKidToken, Event.Cert clientCertURL ""] ∧
    (keys sampleEnv emptyKidToken { world := 1, trace := [] }).2.world =
      (sampleEnv.Cert clientCertURL "" 1).2 ∧
    (keys sampleEnv emptyKidToken { world := 1, trace := [] }).1 =
      (match (sampleEnv.Cert clientCertURL "" 1).1 with
        | Except.error certErr => ([], some certErr)
        | Except.ok cert => ([sampleEnv.PublicKey cert], none)) :=
  ⟨rfl, keys_empty_kid_calls_Cert sampleEnv emptyKidToken { world := 1, trace := [] } rfl⟩

/-- C5 (counterexample): in the example environment the header of the token has
the empty string as kid, and the key callback nevertheless calls
`Certificates.Cert` (with the empty string): the call is in the trace and the
world has moved from one remaining fetch to none. -/
theorem keys_empty_kid_not_rejected_before_lookup :
    Dict.Get (sampleEnv.Protected emptyKidToken) "kid" = Value.str "" ∧
    (keys sampleEnv emptyKidToken { world := 1, trace := [] }).2.trace =
      [Event.KeysCallback emptyKidToken, Event.Cert clientCertURL ""] ∧
    (keys sampleEnv emptyKidToken { world := 1, trace := [] }).2.world = 0 ∧
    (keys sampleEnv emptyKidToken { world := 1, trace := [] }).2.world ≠ 1 := by
  refine ⟨rfl, rfl, rfl, by decide⟩

/-- C6: when the protected header has no kid entry, or a kid entry that is not a
string, the key callback returns a nil key list and the `ErrValue` with message
"Firebase Auth ID Token has no 'kid' claim" and the protected header as value,
and makes no call (the world is unchanged, no `Cert` call is in the trace); when
the kid is a string `k`, the callback makes exactly one call,
`Certificates.Cert` with `k`. -/
theorem keys_kid_lookup {J W C K σ : Type} (env : Env J W C K σ) (j : W)
    (s : Run J W K σ) :
    ((List.lookup "kid" (env.Protected j) = none ∨
        ∃ v, List.lookup "kid" (env.Protected j) = some v ∧ ∀ k, v ≠ Value.str k) →
      keys env j s =
        (([], some (Error.errValue
            { msg := "Firebase Auth ID Token has no 'kid' claim",
              val := Attached.header (env.Protected j) })),
         { world := s.world, trace := s.trace ++ [Event.KeysCallback j] })) ∧
    (∀ k, List.lookup "kid" (env.Protected j) = some (Value.str k) →
      (keys env j s).2.trace =
        s.trace ++ [Event.KeysCallback j, Event.Cert clientCertURL k] ∧
      (keys env j s).2.world = (env.Cert clientCertURL k s.world).2 ∧
      (keys env j s).1 =
        (match (env.Cert clientCertURL k s.world).1 with
          | Except.error certErr => ([], some certErr)
          | Except.ok cert => ([env.PublicKey cert], none))) := by
  constructor
  · intro h
    apply keys_of_no_string_kid
    intro k hk
    rcases h with h | ⟨v, hv, hne⟩
    · simp [Dict.Get, h] at hk
    · simp only [Dict.Get, hv] at hk
      exact hne k hk
  · intro k hk
    have h : Dict.Get (env.Protected j) "kid" = Value.str k := by
      simp [Dict.Get, hk]
    rw [keys_of_string_kid env j s k h]
    exact ⟨rfl, rfl, rfl⟩

/-- C6 (witness): both parts at tokens of the example environment, one without
a kid and one with kid K1. -/
theorem keys_kid_lookup_witness :
    keys sampleEnv noKidToken { world := 1, trace := [] } =
      (([], some (Error.errValue
          { msg := "Firebase Auth ID Token has no 'kid' claim",
            val := Attached.header (sampleEnv.Protected noKidToken) })),
       { world := 1, trace := [] ++ [Event.KeysCallback noKidToken] }) ∧
    ((keys sampleEnv sampleToken { world := 1, trace := [] }).2.trace =
        [] ++ [Event.KeysCallback sampleToken, Event.Cert clientCertURL "K1"] ∧
      (keys sampleEnv sampleToken { world := 1, trace := [] }).2.world =
        (sampleEnv.Cert clientCertURL "K1" 1).2 ∧
      (keys sampleEnv sampleToken { world := 1, trace := [] }).1 =
        (match (sampleEnv.Cert clientCertURL "K1" 1).1 with
          | Except.error certErr => ([], some certErr)
          | Except.ok cert => ([sampleEnv.PublicKey cert], none))) :=
  ⟨(keys_kid_lookup sampleEnv noKidToken { world := 1, trace := [] }).1 (Or.inl rfl),
   (keys_kid_lookup sampleEnv sampleToken { world := 1, trace := [] }).2 "K1" rfl⟩

/-! ## Properties of `VerifyIDToken` -/

/-- The body of `VerifyIDToken`, stage by stage. -/
theorem VerifyIDToken_stages {J W C K σ : Type} (env : Env J W C K σ)
    (projectID tokenString : String) (w : σ) :
    VerifyIDToken env projectID tokenString w =
      match env.ParseJWT tokenString with
      | Except.error err =>
        (Outcome.returned none (some err),
          { world := w, trace := [Event.ParseJWT tokenString] })
      | Except.ok decodedJWT =>
        match env.asJWS decodedJWT with
        | none =>
          (Outcome.returned none (some (Error.errValue
            { msg := "Firebase Auth ID Token cannot be decoded",
              val := Attached.jwt decodedJWT })),
            { world := w, trace := [Event.ParseJWT tokenString] })
        | some decodedJWS =>
          match (verifyCallbackCall env tokenString decodedJWS w).1 with
          | some err =>
            (Outcome.returned none (some err),
              (verifyCallbackCall env tokenString decodedJWS w).2)
          | none =>
            match (secondKeysCall env tokenString decodedJWS w).1.1 with
            | [] => (Outcome.panicked, (secondKeysCall env tokenString decodedJWS w).2)
            | key :: _ =>
              match env.Validate decodedJWT key SigningMethod.RS256 (validator J projectID)
                  (secondKeysCall env tokenString decodedJWS w).2.world with
              | some err =>
                (Outcome.returned none (some err),
                  { world := (secondKeysCall env tokenString decodedJWS w).2.world,
                    trace := (secondKeysCall env tokenString decodedJWS w).2.trace ++
                      [Event.Validate decodedJWT key SigningMethod.RS256
                        (validator J projectID)] })
              | none =>
                (Outcome.returned (some { delegate := decodedJWT }) none,
                  { world := (secondKeysCall env tokenString decodedJWS w).2.world,
                    trace := (secondKeysCall env tokenString decodedJWS w).2.trace ++
                      [Event.Validate decodedJWT key SigningMethod.RS256
                        (validator J projectID)] }) := by
  rfl

/-- Every event that the key callback adds to the trace is an entry into the
callback or a certificate lookup. -/
theorem keys_trace_forall {J W C K σ : Type} (env : Env J W C K σ)
    (P : Event J W K → Prop) (hk : ∀ j, P (Event.KeysCallback j))
    (hc : ∀ url kid, P (Event.Cert url kid)) (j : W) (s : Run J W K σ)
    (hs : ∀ e ∈ s.trace, P e) : ∀ e ∈ (keys env j s).2.trace, P e := by
  by_cases h : ∃ k, Dict.Get (env.Protected j) "kid" = Value.str k
  · obtain ⟨k, hk1⟩ := h
    rw [keys_of_string_kid env j s k hk1]
    intro e he
    simp only [List.mem_append, List.mem_cons, List.mem_singleton, List.not_mem_nil,
      or_false] at he
    rcases he with he | he | he
    · exact hs e he
    · rw [he]
      exact hk j
    · rw [he]
      exact hc _ _
  · rw [keys_of_no_string_kid env j s (fun k hk1 => h ⟨k, hk1⟩)]
    intro e he
    simp only [List.mem_append, List.mem_singleton] at he
    rcases he with he | he
    · exact hs e he
    · rw [he]
      exact hk j

/-- Every event that a run of the library's `VerifyCallback` adds to the trace is
an entry into the key callback or a certificate lookup. -/
theorem Callback_run_trace_forall {J W C K σ : Type} (env : Env J W C K σ)
    (P : Event J W K → Prop) (hk : ∀ j, P (Event.KeysCallback j))
    (hc : ∀ url kid, P (Event.Cert url kid)) (prog : Callback W K (Error J)) :
    ∀ s : Run J W K σ, (∀ e ∈ s.trace, P e) →
      ∀ e ∈ (Callback.run (keys env) prog s).2.trace, P e := by
  induction prog with
  | ret err =>
    intro s hs
    exact hs
  | call j next ih =>
    intro s hs
    exact ih _ _ (keys_trace_forall env P hk hc j s hs)

/-- Every event in the trace of a run of `VerifyIDToken` is the parse, the
`VerifyCallback` call with `[RS256]` and the fixed options, an entry into the key
callback, a certificate lookup, or the `Validate` call with `RS256` and
`validator(projectID)`. -/
theorem VerifyIDToken_trace_forall {J W C K σ : Type} (env : Env J W C K σ)
    (projectID tokenString : String) (w : σ) (P : Event J W K → Prop)
    (hp : P (Event.ParseJWT tokenString))
    (hk : ∀ j, P (Event.KeysCallback j))
    (hc : ∀ url kid, P (Event.Cert url kid))
    (hv : ∀ j, P (Event.VerifyCallback j [SigningMethod.RS256] signingOpts))
    (hval : ∀ j key, P (Event.Validate j key SigningMethod.RS256 (validator J projectID))) :
    ∀ e ∈ (VerifyIDToken env projectID tokenString w).2.trace, P e := by
  have h0 : ∀ e ∈ [Event.ParseJWT (J := J) (W := W) (K := K) tokenString], P e := by
    intro e he
    rw [List.mem_singleton] at he
    rw [he]
    exact hp
  have h1 : ∀ decodedJWS,
      ∀ e ∈ (verifyCallbackCall env tokenString decodedJWS w).2.trace, P e := by
    intro decodedJWS
    apply Callback_run_trace_forall env P hk hc
    intro e he
    simp only [List.mem_cons, List.mem_singleton, List.not_mem_nil, or_false] at he
    rcases he with he | he
    · rw [he]
      exact hp
    · rw [he]
      exact hv _
  have h2 : ∀ decodedJWS,
      ∀ e ∈ (secondKeysCall env tokenString decodedJWS w).2.trace, P e := by
    intro decodedJWS
    exact keys_trace_forall env P hk hc _ _ (h1 decodedJWS)
  rw [VerifyIDToken_stages]
  split
  · exact h0
  · split
    · exact h0
    · split
      · exact h1 _
      · split
        · exact h2 _
        · split
          · intro e he
            simp only [List.mem_append, List.mem_singleton] at he
            rcases he with he | he
            · exact h2 _ e he
            · rw [he]
              exact hval _ _
          · intro e he
            simp only [List.mem_append, List.mem_singleton] at he
            rcases he with he | he
            · exact h2 _ e he
            · rw [he]
              exact hval _ _

/-- C1: `VerifyIDToken` returns the error of the first failing stage and runs no
later stage. If `jws.ParseJWT` fails, its error is returned and the parse is the
only event of the run (no key callback, no `VerifyCallback`, no `Validate`); if
the assertion to `jws.JWS` fails, the `ErrValue` is returned and again nothing
else runs; if `VerifyCallback` fails, its error is returned, the run stops in the
state in which `VerifyCallback` left it, and no `Validate` call is in the trace;
if `Validate` fails, its error is returned. -/
theorem VerifyIDToken_first_failing_stage {J W C K σ : Type} (env : Env J W C K σ)
    (projectID tokenString : String) (w : σ) :
    (∀ err, env.ParseJWT tokenString = Except.error err →
      VerifyIDToken env projectID tokenString w =
        (Outcome.returned none (some err),
          { world := w, trace := [Event.ParseJWT tokenString] })) ∧
    (∀ decodedJWT, env.ParseJWT tokenString = Except.ok decodedJWT →
      env.asJWS decodedJWT = none →
      VerifyIDToken env projectID tokenString w =
        (Outcome.returned none (some (Error.errValue
          { msg := "Firebase Auth ID Token cannot be decoded",
            val := Attached.jwt decodedJWT })),
          { world := w, trace := [Event.ParseJWT tokenString] })) ∧
    (∀ decodedJWT decodedJWS err, env.ParseJWT tokenString = Except.ok decodedJWT →
      env.asJWS decodedJWT = some decodedJWS →
      (verifyCallbackCall env tokenString decodedJWS w).1 = some err →
      VerifyIDToken env projectID tokenString w =
        (Outcome.returned none (some err),
          (verifyCallbackCall env tokenString decodedJWS w).2) ∧
      ∀ e ∈ (VerifyIDToken env projectID tokenString w).2.trace,
        ∀ j key method v, e ≠ Event.Validate j key method v) ∧
    (∀ decodedJWT decodedJWS key rest err,
      env.ParseJWT tokenString = Except.ok decodedJWT →
      env.asJWS decodedJWT = some decodedJWS →
      (verifyCallbackCall env tokenString decodedJWS w).1 = none →
      (secondKeysCall env tokenString decodedJWS w).1.1 = key :: rest →
      env.Validate decodedJWT key SigningMethod.RS256 (validator J projectID)
        (secondKeysCall env tokenString decodedJWS w).2.world = some err →
      (VerifyIDToken env projectID tokenString w).1 = Outcome.returned none (some err)) := by
  refine ⟨?_, ?_, ?_, ?_⟩
  · intro err h
    rw [VerifyIDToken_stages]
    simp only [h]
  · intro decodedJWT h1 h2
    rw [VerifyIDToken_stages]
    simp only [h1, h2]
  · intro decodedJWT decodedJWS err h1 h2 h3
    have hrun : VerifyIDToken env projectID tokenString w =
        (Outcome.returned none (some err),
          (verifyCallbackCall env tokenString decodedJWS w).2) := by
      rw [VerifyIDToken_stages]
      simp only [h1, h2, h3]
    refine ⟨hrun, ?_⟩
    rw [hrun]
    apply Callback_run_trace_forall env
      (fun e => ∀ j key method v, e ≠ Event.Validate j key method v)
    · intro j j1 key method v h
      cases h
    · intro url kid j1 key method v h
      cases h
    · intro e he
      simp only [List.mem_cons, List.mem_singleton, List.not_mem_nil, or_false] at he
      rcases he with he | he
      · rw [he]
        intro j1 key method v h
        cases h
      · rw [he]
        intro j1 key method v h
        cases h
  · intro decodedJWT decodedJWS key rest err h1 h2 h3 h4 h5
    rw [VerifyIDToken_stages]
    simp only [h1, h2, h3, h4, h5]

/-- C1 (witness): in the example environment, a string that does not parse, a
token with a forged signature, and a token whose subject is empty. -/
theorem VerifyIDToken_first_failing_stage_witness :
    VerifyIDToken sampleEnv "proj-x" "garbage" 2 =
      (Outcome.returned none (some (Error.other "not a compact JWS")),
        { world := 2, trace := [Event.ParseJWT "garbage"] }) ∧
    (VerifyIDToken sampleEnv "proj-x" "token-forged" 2 =
        (Outcome.returned none (some (Error.other "signature mismatch")),
          (verifyCallbackCall sampleEnv "token-forged" forgedToken 2).2) ∧
      ∀ e ∈ (VerifyIDToken sampleEnv "proj-x" "token-forged" 2).2.trace,
        ∀ j key method v, e ≠ Event.Validate j key method v) ∧
    (VerifyIDToken sampleEnv "proj-x" "token-empty-sub" 2).1 =
      Outcome.returned none (some Error.ErrInvalidSUBClaim) :=
  ⟨(VerifyIDToken_first_failing_stage sampleEnv "proj-x" "garbage" 2).1 _ rfl,
   (VerifyIDToken_first_failing_stage sampleEnv "proj-x" "token-forged" 2).2.2.1
      forgedToken forgedToken _ rfl rfl rfl,
   (VerifyIDToken_first_failing_stage sampleEnv "proj-x" "token-empty-sub" 2).2.2.2
      emptySubToken emptySubToken "pub-K1" [] _ rfl rfl rfl rfl rfl⟩

/-- The key callback uses of the environment only the protected header, the
certificate lookup and the public key of a certificate. -/
theorem keys_congr {J W C K σ : Type} (env : Env J W C K σ)
    (vc : W → List SigningMethod → SigningOpts → Callback W K (Error J))
    (val : J → K → SigningMethod → Validator J → σ → Option (Error J)) :
    keys { env with VerifyCallback := vc, Validate := val } = keys env := by
  rfl

/-- C7: every signature check of `VerifyIDToken` is made with the fixed method
RS256, whatever the token, its header, the projectID and the collaborators.
(1) The run consults the library's `VerifyCallback` only at the method list
`[RS256]` (with the fixed options) and the library's `Validate` only at the
method `RS256` (with `validator(projectID)`): replacing them by any `vc`, `val`
that agree there, and differ at will on every other method, changes neither the
result nor the state of the run. (2) These calls are made: once the token is
parsed and asserted, the error of `decodedJWS.VerifyCallback(keys, [RS256], opts)`
is the returned error, and when it is nil and the key callback yields a key, the
result is that of `decodedJWT.Validate(key, RS256, validator(projectID))`.
(3) In the trace, every `VerifyCallback` call carries `[RS256]` and every
`Validate` call carries `RS256`. -/
theorem VerifyIDToken_signing_method_fixed {J W C K σ : Type} (env : Env J W C K σ)
    (projectID tokenString : String) (w : σ)
    (vc : W → List SigningMethod → SigningOpts → Callback W K (Error J))
    (val : J → K → SigningMethod → Validator J → σ → Option (Error J))
    (hvc : ∀ j, vc j [SigningMethod.RS256] signingOpts =
      env.VerifyCallback j [SigningMethod.RS256] signingOpts)
    (hval : ∀ j key s, val j key SigningMethod.RS256 (validator J projectID) s =
      env.Validate j key SigningMethod.RS256 (validator J projectID) s) :
    VerifyIDToken { env with VerifyCallback := vc, Validate := val }
        projectID tokenString w =
      VerifyIDToken env projectID tokenString w ∧
    (∀ decodedJWT decodedJWS, env.ParseJWT tokenString = Except.ok decodedJWT →
      env.asJWS decodedJWT = some decodedJWS →
      (∀ err,
        (Callback.run (keys env)
          (env.VerifyCallback decodedJWS [SigningMethod.RS256] signingOpts)
          { world := w,
            trace := [Event.ParseJWT tokenString,
              Event.VerifyCallback decodedJWS [SigningMethod.RS256] signingOpts] }).1 =
          some err →
        (VerifyIDToken env projectID tokenString w).1 =
          Outcome.returned none (some err)) ∧
      (∀ key rest,
        (Callback.run (keys env)
          (env.VerifyCallback decodedJWS [SigningMethod.RS256] signingOpts)
          { world := w,
            trace := [Event.ParseJWT tokenString,
              Event.VerifyCallback decodedJWS [SigningMethod.RS256] signingOpts] }).1 =
          none →
        (secondKeysCall env tokenString decodedJWS w).1.1 = key :: rest →
        (VerifyIDToken env projectID tokenString w).1 =
          match env.Validate decodedJWT key SigningMethod.RS256 (validator J projectID)
              (secondKeysCall env tokenString decodedJWS w).2.world with
          | some err => Outcome.returned none (some err)
          | none => Outcome.returned (some { delegate := decodedJWT }) none)) ∧
    (∀ e ∈ (VerifyIDToken env projectID tokenString w).2.trace,
      (∀ j methods o, e = Event.VerifyCallback j methods o →
        methods = [SigningMethod.RS256] ∧ o = signingOpts) ∧
      (∀ j key method v, e = Event.Validate j key method v →
        method = SigningMethod.RS256 ∧ v = validator J projectID)) := by
  refine ⟨?_, ?_, ?_⟩
  · unfold VerifyIDToken
    simp only [keys_congr, hvc, hval]
  · intro decodedJWT decodedJWS h1 h2
    constructor
    · intro err h3
      have h3a : (verifyCallbackCall env tokenString decodedJWS w).1 = some err := h3
      rw [VerifyIDToken_stages]
      simp only [h1, h2, h3a]
    · intro key rest h3 h4
      have h3a : (verifyCallbackCall env tokenString decodedJWS w).1 = none := h3
      rw [VerifyIDToken_stages]
      simp only [h1, h2, h3a, h4]
      split <;> rfl
  · apply VerifyIDToken_trace_forall env projectID tokenString w
    · exact ⟨fun _ _ _ h => (by cases h), fun _ _ _ _ h => by cases h⟩
    · intro j
      exact ⟨fun _ _ _ h => (by cases h), fun _ _ _ _ h => by cases h⟩
    · intro url kid
      exact ⟨fun _ _ _ h => (by cases h), fun _ _ _ _ h => by cases h⟩
    · intro j
      refine ⟨fun _ _ _ h => ?_, fun _ _ _ _ h => by cases h⟩
      cases h
      exact ⟨rfl, rfl⟩
    · intro j key
      refine ⟨fun _ _ _ h => (by cases h), fun _ _ _ _ h => ?_⟩
      cases h
      exact ⟨rfl, rfl⟩

/-- C7 (witness): the example environment, and a library that accepts every token
under any method other than RS256: the run on the forged token is the same with
both, its `VerifyCallback` error is returned, and the successful run on the
token signed with K1 returns what `Validate` with RS256 says. -/
theorem VerifyIDToken_signing_method_fixed_witness :
    (∀ j, laxVerifyCallback j [SigningMethod.RS256] signingOpts =
      sampleEnv.VerifyCallback j [SigningMethod.RS256] signingOpts) ∧
    (∀ j key s, laxValidate j key SigningMethod.RS256 (validator SampleJWT "proj-x") s =
      sampleEnv.Validate j key SigningMethod.RS256 (validator SampleJWT "proj-x") s) ∧
    VerifyIDToken { sampleEnv with VerifyCallback := laxVerifyCallback, Validate := laxValidate }
        "proj-x" "token-forged" 2 =
      VerifyIDToken sampleEnv "proj-x" "token-forged" 2 ∧
    (VerifyIDToken sampleEnv "proj-x" "token-forged" 2).1 =
      Outcome.returned none (some (Error.other "signature mismatch")) ∧
    (VerifyIDToken sampleEnv "proj-x" "token-K1" 2).1 =
      (match sampleEnv.Validate sampleToken "pub-K1" SigningMethod.RS256
          (validator SampleJWT "proj-x")
          (secondKeysCall sampleEnv "token-K1" sampleToken 2).2.world with
        | some err => Outcome.returned none (some err)
        | none => Outcome.returned (some { delegate := sampleToken }) none) :=
  ⟨fun _ => rfl, fun _ _ _ => rfl,
   (VerifyIDToken_signing_method_fixed sampleEnv "proj-x" "token-forged" 2
      laxVerifyCallback laxValidate (fun _ => rfl) (fun _ _ _ => rfl)).1,
   ((VerifyIDToken_signing_method_fixed sampleEnv "proj-x" "token-forged" 2
      laxVerifyCallback laxValidate (fun _ => rfl) (fun _ _ _ => rfl)).2.1
      forgedToken forgedToken rfl rfl).1 _ rfl,
   ((VerifyIDToken_signing_method_fixed sampleEnv "proj-x" "token-K1" 2
      laxVerifyCallback laxValidate (fun _ => rfl) (fun _ _ _ => rfl)).2.1
      sampleToken sampleToken rfl rfl).2 "pub-K1" [] rfl rfl⟩

/-- A run of `VerifyIDToken` ends in exactly one of three ways: a panic, an error
without a token, or a token without an error. -/
theorem VerifyIDToken_outcome_cases {J W C K σ : Type} (env : Env J W C K σ)
    (projectID tokenString : String) (w : σ) :
    (VerifyIDToken env projectID tokenString w).1 = Outcome.panicked ∨
    (∃ err, (VerifyIDToken env projectID tokenString w).1 =
      Outcome.returned none (some err)) ∨
    (∃ tok, (VerifyIDToken env projectID tokenString w).1 =
      Outcome.returned (some tok) none) := by
  rw [VerifyIDToken_stages]
  split
  · exact Or.inr (Or.inl ⟨_, rfl⟩)
  · split
    · exact Or.inr (Or.inl ⟨_, rfl⟩)
    · split
      · exact Or.inr (Or.inl ⟨_, rfl⟩)
      · split
        · exact Or.inl rfl
        · split
          · exact Or.inr (Or.inl ⟨_, rfl⟩)
          · exact Or.inr (Or.inr ⟨_, rfl⟩)

/-- A token is returned exactly when all of `jws.ParseJWT`, the assertion to
`jws.JWS`, `VerifyCallback` and `Validate` with `validator(projectID)` succeeded,
the second call of the key callback having produced a key. -/
theorem VerifyIDToken_token_iff {J W C K σ : Type} (env : Env J W C K σ)
    (projectID tokenString : String) (w : σ) (tok : Token J) :
    (VerifyIDToken env projectID tokenString w).1 = Outcome.returned (some tok) none ↔
      ∃ decodedJWT decodedJWS key rest,
        env.ParseJWT tokenString = Except.ok decodedJWT ∧
        env.asJWS decodedJWT = some decodedJWS ∧
        (verifyCallbackCall env tokenString decodedJWS w).1 = none ∧
        (secondKeysCall env tokenString decodedJWS w).1.1 = key :: rest ∧
        env.Validate decodedJWT key SigningMethod.RS256 (validator J projectID)
          (secondKeysCall env tokenString decodedJWS w).2.world = none ∧
        tok = { delegate := decodedJWT } := by
  rw [VerifyIDToken_stages]
  cases h1 : env.ParseJWT tokenString with
  | error err => simp
  | ok decodedJWT =>
    dsimp only
    cases h2 : env.asJWS decodedJWT with
    | none => simp [h2]
    | some decodedJWS =>
      dsimp only
      cases h3 : (verifyCallbackCall env tokenString decodedJWS w).1 with
      | some err => simp [h2, h3]
      | none =>
        dsimp only
        cases h4 : (secondKeysCall env tokenString decodedJWS w).1.1 with
        | nil => simp [h2, h3, h4]
        | cons key rest =>
          dsimp only
          cases h5 : env.Validate decodedJWT key SigningMethod.RS256
              (validator J projectID)
              (secondKeysCall env tokenString decodedJWS w).2.world with
          | some err => simp [h2, h3, h4, h5]
          | none =>
            dsimp only
            constructor
            · intro h
              injection h with h6 _
              injection h6 with h7
              exact ⟨decodedJWT, decodedJWS, key, rest, rfl, h2, h3, h4, h5, h7.symm⟩
            · rintro ⟨d, d2, k2, r2, hd, -, -, -, -, ht⟩
              cases hd
              rw [ht]

/-- A run of `VerifyIDToken` panics exactly when `VerifyCallback` succeeded and the
second call of the key callback returned no key. -/
theorem VerifyIDToken_panics_iff {J W C K σ : Type} (env : Env J W C K σ)
    (projectID tokenString : String) (w : σ) :
    (VerifyIDToken env projectID tokenString w).1 = Outcome.panicked ↔
      ∃ decodedJWT decodedJWS,
        env.ParseJWT tokenString = Except.ok decodedJWT ∧
        env.asJWS decodedJWT = some decodedJWS ∧
        (verifyCallbackCall env tokenString decodedJWS w).1 = none ∧
        (secondKeysCall env tokenString decodedJWS w).1.1 = [] := by
  rw [VerifyIDToken_stages]
  cases h1 : env.ParseJWT tokenString with
  | error err => simp
  | ok decodedJWT =>
    dsimp only
    cases h2 : env.asJWS decodedJWT with
    | none => simp [h2]
    | some decodedJWS =>
      dsimp only
      cases h3 : (verifyCallbackCall env tokenString decodedJWS w).1 with
      | some err => simp [h2, h3]
      | none =>
        dsimp only
        cases h4 : (secondKeysCall env tokenString decodedJWS w).1.1 with
        | nil => simp [h2, h3, h4]
        | cons key rest =>
          dsimp only
          cases h5 : env.Validate decodedJWT key SigningMethod.RS256
              (validator J projectID)
              (secondKeysCall env tokenString decodedJWS w).2.world with
          | some err => simp [h2, h3, h4, h5]
          | none => simp [h2, h3, h4, h5]

/-- With the library's `VerifyCallback`, a run panics as soon as the certificate
lookup succeeds during `VerifyCallback`, the signature check passes, and the
lookup repeated by the second call of the key callback fails. -/
theorem VerifyIDToken_panics_of_failed_second_lookup {J W C K σ : Type}
    (env : Env J W C K σ)
    (verifyMulti : W → List K → List SigningMethod → SigningOpts → Option (Error J))
    (projectID tokenString : String) (w : σ) (decodedJWT : J) (decodedJWS : W)
    (k : String) (cert : C) (certErr : Error J)
    (hlib : env.VerifyCallback = joseVerifyCallback verifyMulti)
    (h1 : env.ParseJWT tokenString = Except.ok decodedJWT)
    (h2 : env.asJWS decodedJWT = some decodedJWS)
    (hkid : Dict.Get (env.Protected decodedJWS) "kid" = Value.str k)
    (hfirst : (env.Cert clientCertURL k w).1 = Except.ok cert)
    (hsig : verifyMulti decodedJWS [env.PublicKey cert] [SigningMethod.RS256] signingOpts = none)
    (hsecond : (env.Cert clientCertURL k (env.Cert clientCertURL k w).2).1 =
      Except.error certErr) :
    (VerifyIDToken env projectID tokenString w).1 = Outcome.panicked := by
  rw [VerifyIDToken_panics_iff]
  refine ⟨decodedJWT, decodedJWS, h1, h2, ?_, ?_⟩
  · simp only [verifyCallbackCall, hlib, joseVerifyCallback, Callback.run,
      keys_of_string_kid env decodedJWS _ k hkid, hfirst, hsig]
  · simp only [secondKeysCall, verifyCallbackCall, hlib, joseVerifyCallback, Callback.run,
      keys_of_string_kid env decodedJWS _ k hkid, hfirst, hsecond]

/-- With the library's `VerifyCallback`, a certificate lookup that fails during
`VerifyCallback` ends the run with that error returned. -/
theorem VerifyIDToken_returns_first_lookup_error {J W C K σ : Type}
    (env : Env J W C K σ)
    (verifyMulti : W → List K → List SigningMethod → SigningOpts → Option (Error J))
    (projectID tokenString : String) (w : σ) (decodedJWT : J) (decodedJWS : W)
    (k : String) (certErr : Error J)
    (hlib : env.VerifyCallback = joseVerifyCallback verifyMulti)
    (h1 : env.ParseJWT tokenString = Except.ok decodedJWT)
    (h2 : env.asJWS decodedJWT = some decodedJWS)
    (hkid : Dict.Get (env.Protected decodedJWS) "kid" = Value.str k)
    (hfirst : (env.Cert clientCertURL k w).1 = Except.error certErr) :
    (VerifyIDToken env projectID tokenString w).1 =
      Outcome.returned none (some certErr) := by
  have h3 : (verifyCallbackCall env tokenString decodedJWS w).1 = some certErr := by
    simp only [verifyCallbackCall, hlib, joseVerifyCallback, Callback.run,
      keys_of_string_kid env decodedJWS _ k hkid, hfirst]
  rw [VerifyIDToken_stages]
  simp only [h1, h2, h3]

/-- C2 (failing run): in the example environment with one fetch left, the token
signed with K1 parses, is a `jws.JWS`, and passes `VerifyCallback`; the run then
returns neither a token nor an error. -/
theorem VerifyIDToken_returns_neither_token_nor_error :
    sampleEnv.ParseJWT "token-K1" = Except.ok sampleToken ∧
    sampleEnv.asJWS sampleToken = some sampleToken ∧
    (verifyCallbackCall sampleEnv "token-K1" sampleToken 1).1 = none ∧
    ¬ ∃ tok err, (VerifyIDToken sampleEnv "proj-x" "token-K1" 1).1 =
      Outcome.returned tok err := by
  refine ⟨rfl, rfl, rfl, ?_⟩
  rintro ⟨tok, err, h⟩
  have hp : (VerifyIDToken sampleEnv "proj-x" "token-K1" 1).1 = Outcome.panicked := rfl
  rw [hp] at h
  cases h

/-- C8 (failing run): in the example environment with one fetch left, the run on
the token signed with K1 looks the certificate up twice; the second lookup, made
in the world that `VerifyCallback` left (no fetch left), fails, and its error is
not returned to the caller. -/
theorem VerifyIDToken_discards_second_lookup_error :
    (VerifyIDToken sampleEnv "proj-x" "token-K1" 1).2.trace =
      [Event.ParseJWT "token-K1",
       Event.VerifyCallback sampleToken [SigningMethod.RS256] signingOpts,
       Event.KeysCallback sampleToken, Event.Cert clientCertURL "K1",
       Event.KeysCallback sampleToken, Event.Cert clientCertURL "K1"] ∧
    (verifyCallbackCall sampleEnv "token-K1" sampleToken 1).2.world = 0 ∧
    (sampleEnv.Cert clientCertURL "K1" 0).1 =
      Except.error (Error.other "certificate fetch failed") ∧
    (secondKeysCall sampleEnv "token-K1" sampleToken 1).1.2 =
      some (Error.other "certificate fetch failed") ∧
    ∀ tok, (VerifyIDToken sampleEnv "proj-x" "token-K1" 1).1 ≠
      Outcome.returned tok (some (Error.other "certificate fetch failed")) := by
  refine ⟨rfl, rfl, rfl, rfl, ?_⟩
  intro tok h
  have hp : (VerifyIDToken sampleEnv "proj-x" "token-K1" 1).1 = Outcome.panicked := rfl
  rw [hp] at h
  cases h

/-- C10 (failing run): in the example environment with one fetch left, the
lookup succeeds while `VerifyCallback` runs and fails on the later call; the list
`ks` returned by the second call of the key callback is empty when `ks[0]` is
evaluated, and the run panics. -/
theorem VerifyIDToken_panics_at_index :
    (verifyCallbackCall sampleEnv "token-K1" sampleToken 1).1 = none ∧
    (secondKeysCall sampleEnv "token-K1" sampleToken 1).1.1 = [] ∧
    (VerifyIDToken sampleEnv "proj-x" "token-K1" 1).1 = Outcome.panicked := by
  refine ⟨rfl, rfl, rfl⟩

end Firebase
